import Mathlib

/-!
Verification of the VoipAnalysis traffic-engineering calculator and
call-blocking simulation engine.

Numbers are modelled as exact rationals (`ℚ`): every arithmetic operation the
source performs (addition, multiplication, division, floor, ceil, comparison)
is exact at the values exercised here, so the rational model agrees with the
JavaScript evaluation on the inputs used by the theorems below.

Sources embedded:
  * `src/app.js` — constants, `generateTrafficMatrix` (randomized split),
    `erlangB`, `calculateTrafficData`;
  * `src/unnamed/part_001` — the equal-split revision of
    `generateTrafficMatrix` and its `calculateTrafficData` (its `erlangB` is
    textually identical to the one in `src/app.js`, so a single definition
    serves both);
  * `src/callsim.js` — the discrete-event call simulator (global state,
    `initializeSimulation`, `startSimulation`, `calculateDynamicSimulationParams`,
    `calculateLinkSimulationParams`, `spawnDynamicCall`, `stopSimulation`,
    `clearSimulation`, `updateSimulationMetrics`, `getSimulationMetrics`).
-/

/-! ### Association-list helpers

JavaScript objects used as string-keyed maps (`window.simulationData`,
`window.simulationTimers`, the DOM metric elements) are modelled as
association lists with at most one binding per key. -/

/-- Lookup of `k` in an association list (JS `obj[k]`, `undefined ↦ none`). -/
def assocFind {β : Type} (k : String) : List (String × β) → Option β
  | [] => none
  | (k2, v) :: rest => if k2 = k then some v else assocFind k rest

/-- Insert-or-replace of binding `k ↦ v` (JS `obj[k] = v`). -/
def assocPut {β : Type} (k : String) (v : β) : List (String × β) → List (String × β)
  | [] => [(k, v)]
  | (k2, v2) :: rest => if k2 = k then (k, v) :: rest else (k2, v2) :: assocPut k v rest

/-- Update the value bound to `k`, if present (JS in-place mutation of the
object `obj[k]` refers to). -/
def assocUpd {β : Type} (k : String) (f : β → β) : List (String × β) → List (String × β)
  | [] => []
  | (k2, v2) :: rest => if k2 = k then (k2, f v2) :: rest else (k2, v2) :: assocUpd k f rest

theorem assocFind_assocPut {β : Type} (k k2 : String) (v : β) (l : List (String × β)) :
    assocFind k (assocPut k2 v l) = if k2 = k then some v else assocFind k l := by
  induction l with
  | nil => by_cases h : k2 = k <;> simp [assocFind, assocPut, h]
  | cons hd tl ih =>
    obtain ⟨k3, v3⟩ := hd
    by_cases h3 : k3 = k2
    · subst h3
      by_cases h : k3 = k <;> simp [assocFind, assocPut, h]
    · by_cases h : k3 = k
      · subst h
        simp only [assocPut, if_neg h3, assocFind, if_pos rfl]
        have : ¬ k2 = k3 := fun hh => h3 hh.symm
        simp [this]
      · simp [assocFind, assocPut, h3, h, ih]

theorem assocFind_assocUpd {β : Type} (k k2 : String) (f : β → β) (l : List (String × β)) :
    assocFind k (assocUpd k2 f l) =
      if k2 = k then (assocFind k l).map f else assocFind k l := by
  induction l with
  | nil => by_cases h : k2 = k <;> simp [assocFind, assocUpd, h]
  | cons hd tl ih =>
    obtain ⟨k3, v3⟩ := hd
    by_cases h3 : k3 = k2
    · subst h3
      by_cases h : k3 = k <;> simp [assocFind, assocUpd, h]
    · by_cases h : k3 = k
      · subst h
        have : ¬ k2 = k3 := fun hh => h3 hh.symm
        simp [assocFind, assocUpd, h3, this]
      · simp [assocFind, assocUpd, h3, h, ih]

/-! ### ErlangCalculator (src/app.js lines 380–481, src/unnamed/part_001 lines 220–315) -/

/-- The fixed location set (`const LOCATIONS = ['US', 'China', 'UK']`). -/
def LOCATIONS : List String := ["US", "China", "UK"]

/-- Total outgoing traffic in minutes per day (`const TOTAL_TRAFFIC = {...}`).
JS object lookup; keys outside the object would give `undefined`, but the code
only reads entries of `LOCATIONS`. -/
def TOTAL_TRAFFIC (loc : String) : ℚ :=
  if loc = "US" then 12822
  else if loc = "China" then 28286
  else if loc = "UK" then 28000
  else 0

/-- `const CODEC_BANDWIDTHS = { g711: 64, g729a: 8 }` (kbps). -/
def CODEC_BANDWIDTHS (codec : String) : ℚ :=
  if codec = "g711" then 64
  else if codec = "g729a" then 8
  else 0

/-- `const T1_BANDWIDTH = 1.544` (Mbps). -/
def T1_BANDWIDTH : ℚ := 1544 / 1000

/-- `const T1_CHANNELS = 24`. -/
def T1_CHANNELS : ℚ := 24

/-- `const HEADER_BANDWIDTH = (40 * 8 * 50) / 1000` = 16 kbps. -/
def HEADER_BANDWIDTH : ℚ := (40 * 8 * 50) / 1000

/-- The Erlang-B blocking probability computed by the recurrence the source's
loop iterates: `B(E,0) = 1`, `B(E,m) = E·B(E,m-1) / (m + E·B(E,m-1))`. -/
def erlangBrec (E : ℚ) : ℕ → ℚ
  | 0 => 1
  | m + 1 => E * erlangBrec E m / (((m : ℚ) + 1) + E * erlangBrec E m)

/-- The loop body of `erlangB`: starting at circuit count `m` with
`B = B(E, m-1)`, iterate `B := E·B/(m + E·B)` and return the first `m` with
`B ≤ blockingProb`; once the remaining iteration budget `fuel` is exhausted
(the source loops `m = 1..10000`) return `10000`. -/
def erlangBfrom (E p : ℚ) : ℕ → ℚ → ℕ → ℕ
  | 0, _, _ => 10000
  | fuel + 1, B, m =>
    let B2 := E * B / ((m : ℚ) + E * B)
    if B2 ≤ p then m else erlangBfrom E p fuel B2 (m + 1)

/-- `function erlangB(erlangs, blockingProb)` (src/app.js 409–428 and the
textually identical copy in src/unnamed/part_001 243–262): required circuit
count by iterating the Erlang-B recurrence; `0` traffic needs `0` circuits. -/
def erlangB (erlangs blockingProb : ℚ) : ℕ :=
  if erlangs = 0 then 0
  else erlangBfrom erlangs blockingProb 10000 1 1

/-- A per-link analysis record as pushed by `calculateTrafficData`; the
mode-specific fields are only assigned on the corresponding branch, hence
`Option` (JS: absent property). -/
structure LinkData where
  «from» : String
  «to» : String
  dailyMinutes : ℚ
  busyHourErlangs : ℚ
  requiredCircuits : Option ℕ := none
  t1Count : Option ℤ := none
  bandwidthMbps : Option ℚ := none
  codec : Option String := none
  codecBandwidth : Option ℚ := none
  headerBandwidth : Option ℚ := none
  totalBandwidthPerCall : Option ℚ := none
  totalBandwidthMbps : Option ℚ := none
deriving DecidableEq, Repr

namespace AppJs

/-- `generateTrafficMatrix` (src/app.js 380–407), randomized split: for each
origin `i` one uniform draw `rand i` gives `weight1 = 0.3 + rand i * 0.4` for
the first destination (in ascending index order, skipping the diagonal) and
`weight2 = 1 - weight1` for the second.  The random source is passed
explicitly (`Math.random()` draws, one per origin). -/
def generateTrafficMatrix (rand : ℕ → ℚ) (i j : ℕ) : ℚ :=
  let totalOutgoing := TOTAL_TRAFFIC (LOCATIONS.getD i "")
  let weight1 := 3 / 10 + rand i * (4 / 10)
  let weight2 := 1 - weight1
  if i = j then 0
  else if (i = 0 ∧ j = 1) ∨ (i ≠ 0 ∧ j = 0) then totalOutgoing * weight1
  else totalOutgoing * weight2

/-- `calculateTrafficData` (src/app.js 430–481): one record per ordered pair
of distinct locations with nonzero traffic (the two `continue` statements of
the source loop become empty lists); PSTN records get circuit counts via
`erlangB`, VoIP records get per-call bandwidth figures. -/
def calculateTrafficData (networkType codec : String) (blockingProb : ℚ)
    (rand : ℕ → ℚ) : List LinkData :=
  (List.range 3).flatMap fun i =>
    (List.range 3).flatMap fun j =>
      if i = j then []
      else
        let dailyMinutes := generateTrafficMatrix rand i j
        if dailyMinutes = 0 then []
        else
          let busyHourErlangs := dailyMinutes * (17 / 100) / 60
          if networkType = "pstn" then
            let requiredCircuits := erlangB busyHourErlangs blockingProb
            let t1Count := ⌈(requiredCircuits : ℚ) / T1_CHANNELS⌉
            [{ «from» := LOCATIONS.getD i "", «to» := LOCATIONS.getD j "",
               dailyMinutes := dailyMinutes, busyHourErlangs := busyHourErlangs,
               requiredCircuits := some requiredCircuits,
               t1Count := some t1Count,
               bandwidthMbps := some ((t1Count : ℚ) * T1_BANDWIDTH) }]
          else
            let codecBandwidth := CODEC_BANDWIDTHS codec
            let totalBandwidthPerCall := codecBandwidth + HEADER_BANDWIDTH
            [{ «from» := LOCATIONS.getD i "", «to» := LOCATIONS.getD j "",
               dailyMinutes := dailyMinutes, busyHourErlangs := busyHourErlangs,
               codec := some codec,
               codecBandwidth := some codecBandwidth,
               headerBandwidth := some HEADER_BANDWIDTH,
               totalBandwidthPerCall := some totalBandwidthPerCall,
               totalBandwidthMbps := some (busyHourErlangs * totalBandwidthPerCall / 1000) }]

end AppJs

namespace Part001

/-- `generateTrafficMatrix` (src/unnamed/part_001 lines 220–241), equal split:
each origin's daily total is halved between the two other locations. -/
def generateTrafficMatrix (i j : ℕ) : ℚ :=
  let totalOutgoing := TOTAL_TRAFFIC (LOCATIONS.getD i "")
  let splitAmount := totalOutgoing / 2
  if i = j then 0 else splitAmount

/-- `calculateTrafficData` (src/unnamed/part_001 lines 264–315); identical to
the app.js version except that it consumes the equal-split matrix. -/
def calculateTrafficData (networkType codec : String) (blockingProb : ℚ) :
    List LinkData :=
  (List.range 3).flatMap fun i =>
    (List.range 3).flatMap fun j =>
      if i = j then []
      else
        let dailyMinutes := generateTrafficMatrix i j
        if dailyMinutes = 0 then []
        else
          let busyHourErlangs := dailyMinutes * (17 / 100) / 60
          if networkType = "pstn" then
            let requiredCircuits := erlangB busyHourErlangs blockingProb
            let t1Count := ⌈(requiredCircuits : ℚ) / T1_CHANNELS⌉
            [{ «from» := LOCATIONS.getD i "", «to» := LOCATIONS.getD j "",
               dailyMinutes := dailyMinutes, busyHourErlangs := busyHourErlangs,
               requiredCircuits := some requiredCircuits,
               t1Count := some t1Count,
               bandwidthMbps := some ((t1Count : ℚ) * T1_BANDWIDTH) }]
          else
            let codecBandwidth := CODEC_BANDWIDTHS codec
            let totalBandwidthPerCall := codecBandwidth + HEADER_BANDWIDTH
            [{ «from» := LOCATIONS.getD i "", «to» := LOCATIONS.getD j "",
               dailyMinutes := dailyMinutes, busyHourErlangs := busyHourErlangs,
               codec := some codec,
               codecBandwidth := some codecBandwidth,
               headerBandwidth := some HEADER_BANDWIDTH,
               totalBandwidthPerCall := some totalBandwidthPerCall,
               totalBandwidthMbps := some (busyHourErlangs * totalBandwidthPerCall / 1000) }]

end Part001

/-! Evaluation lemmas for the string-keyed constant tables. -/

theorem TOTAL_TRAFFIC_US : TOTAL_TRAFFIC "US" = 12822 := by
  rw [TOTAL_TRAFFIC, if_pos rfl]

theorem TOTAL_TRAFFIC_China : TOTAL_TRAFFIC "China" = 28286 := by
  rw [TOTAL_TRAFFIC, if_neg (by decide), if_pos rfl]

theorem TOTAL_TRAFFIC_UK : TOTAL_TRAFFIC "UK" = 28000 := by
  rw [TOTAL_TRAFFIC, if_neg (by decide), if_neg (by decide), if_pos rfl]

theorem CODEC_BANDWIDTHS_g711 : CODEC_BANDWIDTHS "g711" = 64 := by
  rw [CODEC_BANDWIDTHS, if_pos rfl]

theorem CODEC_BANDWIDTHS_g729a : CODEC_BANDWIDTHS "g729a" = 8 := by
  rw [CODEC_BANDWIDTHS, if_neg (by decide), if_pos rfl]

/-- The equal-split analysis output for a VoIP/G.711 run, concretely.  The
VoIP branch does not read `blockingProb`, so the result is uniform in it. -/
theorem Part001.calculateTrafficData_voip_g711 (bp : ℚ) :
    Part001.calculateTrafficData "voip" "g711" bp = [
      { «from» := "US", «to» := "China", dailyMinutes := 6411,
        busyHourErlangs := 36329 / 2000, codec := some "g711",
        codecBandwidth := some 64, headerBandwidth := some 16,
        totalBandwidthPerCall := some 80, totalBandwidthMbps := some (36329 / 25000) },
      { «from» := "US", «to» := "UK", dailyMinutes := 6411,
        busyHourErlangs := 36329 / 2000, codec := some "g711",
        codecBandwidth := some 64, headerBandwidth := some 16,
        totalBandwidthPerCall := some 80, totalBandwidthMbps := some (36329 / 25000) },
      { «from» := "China", «to» := "US", dailyMinutes := 14143,
        busyHourErlangs := 240431 / 6000, codec := some "g711",
        codecBandwidth := some 64, headerBandwidth := some 16,
        totalBandwidthPerCall := some 80, totalBandwidthMbps := some (240431 / 75000) },
      { «from» := "China", «to» := "UK", dailyMinutes := 14143,
        busyHourErlangs := 240431 / 6000, codec := some "g711",
        codecBandwidth := some 64, headerBandwidth := some 16,
        totalBandwidthPerCall := some 80, totalBandwidthMbps := some (240431 / 75000) },
      { «from» := "UK", «to» := "US", dailyMinutes := 14000,
        busyHourErlangs := 119 / 3, codec := some "g711",
        codecBandwidth := some 64, headerBandwidth := some 16,
        totalBandwidthPerCall := some 80, totalBandwidthMbps := some (238 / 75) },
      { «from» := "UK", «to» := "China", dailyMinutes := 14000,
        busyHourErlangs := 119 / 3, codec := some "g711",
        codecBandwidth := some 64, headerBandwidth := some 16,
        totalBandwidthPerCall := some 80, totalBandwidthMbps := some (238 / 75) }] := by
  norm_num [Part001.calculateTrafficData, Part001.generateTrafficMatrix,
    TOTAL_TRAFFIC_US, TOTAL_TRAFFIC_China, TOTAL_TRAFFIC_UK,
    CODEC_BANDWIDTHS_g711, HEADER_BANDWIDTH, LOCATIONS, List.range_succ,
    show ¬ ("voip" = "pstn") from by decide]

/-! ### Properties of the Erlang-B recurrence and of the `erlangB` search loop -/

theorem erlangBrec_pos {E : ℚ} (hE : 0 < E) : ∀ m : ℕ, 0 < erlangBrec E m
  | 0 => one_pos
  | m + 1 => by
    have hB := erlangBrec_pos hE m
    have hden : 0 < ((m : ℚ) + 1) + E * erlangBrec E m := by positivity
    rw [erlangBrec]
    exact div_pos (mul_pos hE hB) hden

/-- Lower bound on the recurrence: `B(E, m) ≥ 1 - m/E`.  In particular, when
the offered load dwarfs the circuit count the blocking probability stays close
to 1. -/
theorem erlangBrec_ge {E : ℚ} (hE : 0 < E) : ∀ m : ℕ, 1 - (m : ℚ) / E ≤ erlangBrec E m
  | 0 => by simp [erlangBrec]
  | m + 1 => by
    have hB := erlangBrec_ge hE m
    have hBpos := erlangBrec_pos hE m
    set B := erlangBrec E m with hBdef
    have hEB : E - (m : ℚ) ≤ E * B := by
      have h1 : E * (1 - (m : ℚ) / E) ≤ E * B :=
        mul_le_mul_of_nonneg_left hB hE.le
      have h2 : E * (1 - (m : ℚ) / E) = E - (m : ℚ) := by field_simp
      linarith
    have hden : 0 < ((m : ℚ) + 1) + E * B := by positivity
    rw [erlangBrec, ← hBdef]
    have hcast : ((m + 1 : ℕ) : ℚ) = (m : ℚ) + 1 := by push_cast; ring
    rw [hcast]
    have hrw : 1 - ((m : ℚ) + 1) / E = (E - ((m : ℚ) + 1)) / E := by field_simp
    rw [hrw, div_le_div_iff₀ hE hden]
    have hkey : ((m : ℚ) + 1) * (E - (m : ℚ)) ≤ ((m : ℚ) + 1) * (E * B) :=
      mul_le_mul_of_nonneg_left hEB (by positivity)
    nlinarith [hkey]

/-- The recurrence is monotone in the offered load. -/
theorem erlangBrec_mono {E₁ E₂ : ℚ} (h1 : 0 < E₁) (h12 : E₁ ≤ E₂) :
    ∀ m : ℕ, erlangBrec E₁ m ≤ erlangBrec E₂ m
  | 0 => le_refl 1
  | m + 1 => by
    have ih := erlangBrec_mono h1 h12 m
    have hB1 := erlangBrec_pos h1 m
    have hB2 := erlangBrec_pos (lt_of_lt_of_le h1 h12) m
    have hx : E₁ * erlangBrec E₁ m ≤ E₂ * erlangBrec E₂ m :=
      mul_le_mul h12 ih hB1.le (le_trans h1.le h12)
    have hx1 : 0 < E₁ * erlangBrec E₁ m := mul_pos h1 hB1
    have hx2 : 0 < E₂ * erlangBrec E₂ m := mul_pos (lt_of_lt_of_le h1 h12) hB2
    have hm : (0 : ℚ) < (m : ℚ) + 1 := by positivity
    have hd1 : 0 < ((m : ℚ) + 1) + E₁ * erlangBrec E₁ m := by linarith
    have hd2 : 0 < ((m : ℚ) + 1) + E₂ * erlangBrec E₂ m := by linarith
    rw [erlangBrec, erlangBrec, div_le_div_iff₀ hd1 hd2]
    nlinarith [mul_le_mul_of_nonneg_right hx (show (0:ℚ) ≤ (m : ℚ) + 1 by positivity)]

/-- The search loop never returns more than the source's hard cap of 10000. -/
theorem erlangBfrom_le (E p : ℚ) :
    ∀ (fuel m : ℕ) (B : ℚ), m + fuel = 10001 → erlangBfrom E p fuel B m ≤ 10000
  | 0, m, B, _ => by simp [erlangBfrom]
  | fuel + 1, m, B, h => by
    rw [erlangBfrom]
    by_cases hle : E * B / ((m : ℚ) + E * B) ≤ p
    · simpa [hle] using by omega
    · simpa [hle] using erlangBfrom_le E p fuel (m + 1) _ (by omega)

/-- One loop step maps `B(E, j)` to `B(E, j+1)`. -/
theorem erlangBfrom_step (E : ℚ) (j : ℕ) :
    E * erlangBrec E j / (((j + 1 : ℕ) : ℚ) + E * erlangBrec E j) = erlangBrec E (j + 1) := by
  rw [erlangBrec]
  push_cast
  ring_nf

/-- If the target is never met up to the iteration budget, the loop runs out
of fuel and yields 10000. -/
theorem erlangBfrom_eq_cap (E p : ℚ) :
    ∀ (fuel j : ℕ), (∀ k, j < k → k ≤ j + fuel → p < erlangBrec E k) →
      erlangBfrom E p fuel (erlangBrec E j) (j + 1) = 10000
  | 0, j, _ => by simp [erlangBfrom]
  | fuel + 1, j, h => by
    rw [erlangBfrom]
    simp only [erlangBfrom_step E j]
    rw [if_neg (not_le.mpr (h (j + 1) (by omega) (by omega)))]
    exact erlangBfrom_eq_cap E p fuel (j + 1) (fun k hk1 hk2 => h k (by omega) (by omega))

/-- If `n` is the first index after `j` meeting the target (within the fuel
budget), the loop returns `n`. -/
theorem erlangBfrom_eq_found (E p : ℚ) :
    ∀ (fuel j n : ℕ), j < n → n ≤ j + fuel → erlangBrec E n ≤ p →
      (∀ k, j < k → k < n → p < erlangBrec E k) →
      erlangBfrom E p fuel (erlangBrec E j) (j + 1) = n
  | 0, j, n, hjn, hn, _, _ => absurd hn (by omega)
  | fuel + 1, j, n, hjn, hn, hle, hmin => by
    rw [erlangBfrom]
    simp only [erlangBfrom_step E j]
    by_cases hEnd : n = j + 1
    · subst hEnd
      rw [if_pos hle]
    · rw [if_neg (not_le.mpr (hmin (j + 1) (by omega) (by omega)))]
      exact erlangBfrom_eq_found E p fuel (j + 1) n (by omega) (by omega) hle
        (fun k hk1 hk2 => hmin k (by omega) hk2)

theorem erlangB_le_10000 (E p : ℚ) : erlangB E p ≤ 10000 := by
  rw [erlangB]
  split
  · omega
  · exact erlangBfrom_le E p 10000 1 1 (by norm_num)

theorem erlangB_eq_find {E p : ℚ} (hE : 0 < E) (hp : p < 1)
    (h : ∃ n, n ≤ 10000 ∧ erlangBrec E n ≤ p) :
    erlangB E p = Nat.find h := by
  have hspec := Nat.find_spec h
  have h1 : 1 ≤ Nat.find h := by
    rcases Nat.eq_zero_or_pos (Nat.find h) with h0 | h0
    · rw [h0] at hspec
      simp [erlangBrec] at hspec
      linarith
    · omega
  have hB0 : erlangBrec E 0 = 1 := rfl
  rw [erlangB, if_neg hE.ne', show (1 : ℚ) = erlangBrec E 0 from rfl,
    show (1 : ℕ) = 0 + 1 from rfl]
  exact erlangBfrom_eq_found E p 10000 0 (Nat.find h) (by omega) (by omega) hspec.2
    (fun k hk1 hk2 => by
      have := Nat.find_min h hk2
      push_neg at this
      exact this (by omega))

theorem erlangB_eq_cap {E p : ℚ} (hE : 0 < E)
    (h : ∀ n, n ≤ 10000 → p < erlangBrec E n) :
    erlangB E p = 10000 := by
  rw [erlangB, if_neg hE.ne', show (1 : ℚ) = erlangBrec E 0 from rfl,
    show (1 : ℕ) = 0 + 1 from rfl]
  exact erlangBfrom_eq_cap E p 10000 0 (fun k hk1 hk2 => h k (by omega))

theorem erlangB_le_of_found {E p : ℚ} (hE : 0 < E) (hp : p < 1) {n : ℕ}
    (hn : n ≤ 10000) (hB : erlangBrec E n ≤ p) : erlangB E p ≤ n := by
  have h : ∃ m, m ≤ 10000 ∧ erlangBrec E m ≤ p := ⟨n, hn, hB⟩
  rw [erlangB_eq_find hE hp h]
  exact Nat.find_min' h ⟨hn, hB⟩

/-- C1 (amended): for `E > 0` and a target `p ∈ [0.001, 0.1]`, either the
returned `m` meets the target (`B(E,m) ≤ p`) or the search saturates at the
cap 10000 with the target unmet at every circuit count up to the cap; whenever
`0 < m < 10000` the previous count failed the target (`B(E,m-1) > p`), so a
non-saturated result is the minimal circuit count; and `erlangB 0 p = 0`. -/
theorem erlangB_round_trip (E p : ℚ) (hE : 0 < E) (hp1 : 1 / 1000 ≤ p) (hp2 : p ≤ 1 / 10) :
    (erlangBrec E (erlangB E p) ≤ p ∨
      (erlangB E p = 10000 ∧ ∀ k, k ≤ 10000 → p < erlangBrec E k)) ∧
    (0 < erlangB E p → erlangB E p < 10000 → p < erlangBrec E (erlangB E p - 1)) ∧
    erlangB 0 p = 0 := by
  have hp : p < 1 := lt_of_le_of_lt hp2 (by norm_num)
  by_cases h : ∃ n, n ≤ 10000 ∧ erlangBrec E n ≤ p
  · have heq := erlangB_eq_find hE hp h
    have hspec := Nat.find_spec h
    refine ⟨Or.inl (by rw [heq]; exact hspec.2), ?_, by simp [erlangB]⟩
    intro hpos hlt
    rw [heq] at hpos hlt ⊢
    have hklt : Nat.find h - 1 < Nat.find h := by omega
    have hmin := Nat.find_min h hklt
    push_neg at hmin
    exact hmin (by omega)
  · push_neg at h
    have heq := erlangB_eq_cap hE h
    refine ⟨Or.inr ⟨heq, h⟩, ?_, by simp [erlangB]⟩
    intro _ hlt
    rw [heq] at hlt
    omega

/-- Witness for `erlangB_round_trip` at `E = 10`, `p = 1/100` (the worked
example of the specification). -/
theorem erlangB_round_trip_witness :
    (0 : ℚ) < 10 ∧ (1 / 1000 : ℚ) ≤ 1 / 100 ∧ (1 / 100 : ℚ) ≤ 1 / 10 ∧
    ((erlangBrec 10 (erlangB 10 (1 / 100)) ≤ 1 / 100 ∨
      (erlangB 10 (1 / 100) = 10000 ∧ ∀ k, k ≤ 10000 → (1 / 100 : ℚ) < erlangBrec 10 k)) ∧
    (0 < erlangB 10 (1 / 100) → erlangB 10 (1 / 100) < 10000 →
      (1 / 100 : ℚ) < erlangBrec 10 (erlangB 10 (1 / 100) - 1)) ∧
    erlangB 0 (1 / 100) = 0) :=
  ⟨by norm_num, by norm_num, by norm_num,
    erlangB_round_trip 10 (1 / 100) (by norm_num) (by norm_num) (by norm_num)⟩

/-- C1 counterexample to the claim as stated: at offered load `E = 1000000`
and target `p = 1/10` (a value inside the claimed range), the search saturates
and returns 10000, but the recurrence-computed blocking probability at the
returned count is far above the target, so `B(E, m) ≤ p` fails for the
returned `m`. -/
theorem erlangB_round_trip_cex :
    (0 : ℚ) < 1000000 ∧ (1 / 1000 : ℚ) ≤ 1 / 10 ∧ ((1 / 10 : ℚ) ≤ 1 / 10) ∧
    erlangB 1000000 (1 / 10) = 10000 ∧
    ¬ erlangBrec 1000000 (erlangB 1000000 (1 / 10)) ≤ 1 / 10 := by
  have hE : (0 : ℚ) < 1000000 := by norm_num
  have hbound : ∀ k : ℕ, k ≤ 10000 → (1 / 10 : ℚ) < erlangBrec 1000000 k := by
    intro k hk
    have h1 := erlangBrec_ge hE k
    have hkq : (k : ℚ) ≤ 10000 := by exact_mod_cast hk
    have h2 : (k : ℚ) / 1000000 ≤ 10000 / 1000000 := by
      apply div_le_div_of_nonneg_right hkq ?_ |>.trans_eq ?_ <;> norm_num
    linarith
  have hcap := erlangB_eq_cap hE hbound
  refine ⟨hE, by norm_num, by norm_num, hcap, ?_⟩
  rw [hcap]
  exact not_le.mpr (hbound 10000 le_rfl)

/-- C7: for a fixed target blocking probability in `[0.001, 0.1]`, the
required circuit count `erlangB E p` is monotone non-decreasing in the
offered load `E` (over non-negative loads). -/
theorem erlangB_monotone_in_load (E₁ E₂ p : ℚ) (hE1 : 0 ≤ E₁) (h12 : E₁ ≤ E₂)
    (hp1 : 1 / 1000 ≤ p) (hp2 : p ≤ 1 / 10) : erlangB E₁ p ≤ erlangB E₂ p := by
  have hp : p < 1 := lt_of_le_of_lt hp2 (by norm_num)
  rcases eq_or_lt_of_le hE1 with h0 | h0
  · rw [erlangB, if_pos h0.symm]
    exact Nat.zero_le _
  · have hE2 : 0 < E₂ := lt_of_lt_of_le h0 h12
    by_cases h : ∃ n, n ≤ 10000 ∧ erlangBrec E₂ n ≤ p
    · have heq := erlangB_eq_find hE2 hp h
      have hspec := Nat.find_spec h
      have hB1 : erlangBrec E₁ (Nat.find h) ≤ p :=
        le_trans (erlangBrec_mono h0 h12 _) hspec.2
      rw [heq]
      exact erlangB_le_of_found h0 hp hspec.1 hB1
    · push_neg at h
      rw [erlangB_eq_cap hE2 h]
      exact erlangB_le_10000 E₁ p

/-- Witness for `erlangB_monotone_in_load` at `E₁ = 2 ≤ E₂ = 5`, `p = 1/100`. -/
theorem erlangB_monotone_in_load_witness :
    (0 : ℚ) ≤ 2 ∧ (2 : ℚ) ≤ 5 ∧ (1 / 1000 : ℚ) ≤ 1 / 100 ∧ (1 / 100 : ℚ) ≤ 1 / 10 ∧
    erlangB 2 (1 / 100) ≤ erlangB 5 (1 / 100) :=
  ⟨by norm_num, by norm_num, by norm_num, by norm_num,
    erlangB_monotone_in_load 2 5 (1 / 100) (by norm_num) (by norm_num) (by norm_num) (by norm_num)⟩

/-! ### Traffic-matrix invariants -/

/-- C6: in the equal-split revision, for every origin location the
`dailyMinutes` of the generated links leaving that origin sum exactly to that
origin's configured daily outgoing total, for every network type, codec and
blocking probability. -/
theorem part001_outgoing_sum_eq_total (networkType codec : String) (blockingProb : ℚ) :
    (((Part001.calculateTrafficData networkType codec blockingProb).filter
        (fun l => l.«from» == "US")).map LinkData.dailyMinutes).sum = TOTAL_TRAFFIC "US" ∧
    (((Part001.calculateTrafficData networkType codec blockingProb).filter
        (fun l => l.«from» == "China")).map LinkData.dailyMinutes).sum = TOTAL_TRAFFIC "China" ∧
    (((Part001.calculateTrafficData networkType codec blockingProb).filter
        (fun l => l.«from» == "UK")).map LinkData.dailyMinutes).sum = TOTAL_TRAFFIC "UK" := by
  have hCU : ¬ ("China" = "US") := by decide
  have hUC : ¬ ("US" = "China") := by decide
  have hKU : ¬ ("UK" = "US") := by decide
  have hUK : ¬ ("US" = "UK") := by decide
  have hKC : ¬ ("UK" = "China") := by decide
  have hCK : ¬ ("China" = "UK") := by decide
  by_cases hnt : networkType = "pstn" <;>
    simp [Part001.calculateTrafficData, Part001.generateTrafficMatrix, hnt,
      TOTAL_TRAFFIC_US, TOTAL_TRAFFIC_China, TOTAL_TRAFFIC_UK, LOCATIONS, List.range_succ,
      hCU, hUC, hKU, hUK, hKC, hCK]

/-- C10: the randomized-split `calculateTrafficData` of app.js, run with any
uniform draws in `[0, 1)`, returns exactly one record per ordered pair of
distinct locations (six records), each with distinct endpoints and strictly
positive daily minutes. -/
theorem appjs_six_positive_links (networkType codec : String) (blockingProb : ℚ)
    (rand : ℕ → ℚ) (hrand : ∀ i, 0 ≤ rand i ∧ rand i < 1) :
    (AppJs.calculateTrafficData networkType codec blockingProb rand).length = 6 ∧
    (AppJs.calculateTrafficData networkType codec blockingProb rand).map
        (fun l => (l.«from», l.«to»)) =
      [("US", "China"), ("US", "UK"), ("China", "US"), ("China", "UK"),
        ("UK", "US"), ("UK", "China")] ∧
    ∀ l ∈ AppJs.calculateTrafficData networkType codec blockingProb rand,
      l.«from» ≠ l.«to» ∧ 0 < l.dailyMinutes := by
  have hw1 : ∀ i, (0 : ℚ) < 3 / 10 + rand i * (4 / 10) := by
    intro i
    have := (hrand i).1
    nlinarith
  have hw2 : ∀ i, (0 : ℚ) < 1 - (3 / 10 + rand i * (4 / 10)) := by
    intro i
    have := (hrand i).2
    nlinarith
  have hw1ne : ∀ i, (3 : ℚ) / 10 + rand i * (4 / 10) ≠ 0 := fun i => (hw1 i).ne'
  have hw2ne : ∀ i, (1 : ℚ) - (3 / 10 + rand i * (4 / 10)) ≠ 0 := fun i => (hw2 i).ne'
  by_cases hnt : networkType = "pstn" <;>
    simp [AppJs.calculateTrafficData, AppJs.generateTrafficMatrix, hnt,
      TOTAL_TRAFFIC_US, TOTAL_TRAFFIC_China, TOTAL_TRAFFIC_UK, LOCATIONS, List.range_succ,
      mul_eq_zero, hw1ne, hw2ne] <;>
    exact ⟨by linarith [(hrand 0).1], by linarith [(hrand 0).2], by linarith [(hrand 1).1],
      by linarith [(hrand 1).2], by linarith [(hrand 2).1], by linarith [(hrand 2).2]⟩

/-- JS `String.prototype.startsWith`: prefix test on the character
sequences. -/
def strStartsWith (s pre : String) : Bool := pre.data.isPrefixOf s.data

/-! ### CallSimulationEngine (src/callsim.js)

The simulator's global state (`window.simulationRunning`,
`window.currentSimulationId`, `window.simulationData`,
`window.simulationTimers`) together with the scheduled-but-not-yet-fired
call-departure timeouts and the DOM metric read-outs are collected in one
`EngineState` record.  Timer *callbacks* are modelled as explicit events
(`Event` below): the browser event loop firing a callback corresponds to one
`step`.  Random draws (`Math.random()`) are passed in as explicit rational
arguments in `[0, 1)`. -/

namespace Callsim

/-- One entry of `simulationData[id].links`, as built in `startSimulation`.
`callId` is absent in JS until the first call on the link; reading it through
`(link.callId || 0)` makes that equivalent to starting at 0. -/
structure SimLink where
  name : String
  rate : ℚ
  bandwidth : ℚ
  protocol : String
  codec : String
  blockingProb : ℚ
  maxConcurrentCalls : ℤ
  callDuration : ℚ
  callId : ℤ := 0
deriving DecidableEq, Repr

/-- `calculateDynamicSimulationParams`' result record. -/
structure SimulationParams where
  callDuration : ℚ
  bandwidthPerCall : ℚ
  maxConcurrentCalls : ℤ
  blockingProb : ℚ
  networkType : String
  codec : Option String
deriving DecidableEq, Repr

/-- `calculateLinkSimulationParams`' result record. -/
structure LinkParams where
  callRate : ℚ
  bandwidthPerCall : ℚ
  maxConcurrentCalls : ℤ
  callDuration : ℚ
deriving DecidableEq, Repr

/-- `window.simulationData[snapshotId]`.  Fields that are absent in JS until
first written (`blockedCalls`, the peak trackers, `lastUpdateTime`,
`simulationParams`) default so that the guarded reads (`x || 0`,
`!data.lastUpdateTime`) behave identically. -/
structure SimData where
  activeCalls : ℤ
  totalCalls : ℤ
  startTime : Option ℚ
  bandwidthUsage : ℚ
  callRate : ℚ
  links : List SimLink
  blockedCalls : ℤ := 0
  peakActiveCalls : ℤ := 0
  peakBandwidthUsage : ℚ := 0
  lastUpdateTime : Option ℚ := none
  simulationParams : Option SimulationParams := none
deriving DecidableEq, Repr

/-- An entry of `window.snapshots`, restricted to the fields the simulator
reads. -/
structure Snapshot where
  id : String
  networkType : String
  codec : Option String
  blockingProb : ℚ
  trafficData : List LinkData
deriving DecidableEq, Repr

/-- The observer-visible metric read-outs (the DOM text contents that
`updateSimulationMetrics` batches out). -/
structure Displayed where
  activeCalls : ℤ
  bandwidthUsage : ℚ
  blockedCalls : ℤ
deriving DecidableEq, Repr

/-- The engine's whole mutable state. `simulationTimers` records the *keys*
registered in `window.simulationTimers`; `pendingDepartures` records the
call-duration `setTimeout` callbacks created by `spawnDynamicCall` — the
source never registers those under any key. `domElems` lists the snapshot
ids whose start/stop/log elements exist; `displayed` holds the snapshot ids
whose metric elements exist, with their current text. -/
structure EngineState where
  simulationRunning : Bool
  currentSimulationId : Option String
  simulationData : List (String × SimData)
  simulationTimers : List String
  pendingDepartures : List (String × ℚ)
  displayed : List (String × Displayed)
  snapshots : List Snapshot
  domElems : List String
deriving DecidableEq, Repr

/-- `clearSimulation` (src/callsim.js 343–357): delete every registered timer
whose key starts with the snapshot id. -/
def clearSimulation (snapshotId : String) (st : EngineState) : EngineState :=
  let newTimers := st.simulationTimers.filter (fun key => ! strStartsWith key snapshotId)
  { st with simulationTimers := newTimers }

/-- `initializeSimulation` (src/callsim.js 10–54): requires the control
elements, clears a previous run, and installs a fresh zeroed data record. -/
def initializeSimulation (snapshotId : String) (st : EngineState) : EngineState :=
  if snapshotId ∈ st.domElems then
    let st1 := if (assocFind snapshotId st.simulationData).isSome
      then clearSimulation snapshotId st else st
    let freshData : SimData :=
      { activeCalls := 0, totalCalls := 0, startTime := none,
        bandwidthUsage := 0, callRate := 0, links := [] }
    { st1 with simulationData := assocPut snapshotId freshData st1.simulationData }
  else st

/-- `calculateDynamicSimulationParams` (src/callsim.js 191–221). -/
def calculateDynamicSimulationParams (snapshot : Snapshot) : SimulationParams :=
  let baseCallDuration : ℚ := 180
  if snapshot.networkType = "pstn" then
    let bandwidthPerCall : ℚ := 64
    { callDuration := baseCallDuration, bandwidthPerCall := bandwidthPerCall,
      maxConcurrentCalls := ⌊(1544 / 1000 : ℚ) * 1000 / bandwidthPerCall⌋,
      blockingProb := snapshot.blockingProb, networkType := snapshot.networkType,
      codec := snapshot.codec }
  else
    let bandwidthPerCall : ℚ := if snapshot.codec = some "g729a" then 8 else 64
    { callDuration := baseCallDuration, bandwidthPerCall := bandwidthPerCall,
      maxConcurrentCalls := ⌊(1000 : ℚ) / bandwidthPerCall⌋,
      blockingProb := snapshot.blockingProb, networkType := snapshot.networkType,
      codec := snapshot.codec }

/-- `calculateLinkSimulationParams` (src/callsim.js 223–256). -/
def calculateLinkSimulationParams (link : LinkData) (snapshot : Snapshot)
    (simulationParams : SimulationParams) : LinkParams :=
  let theoreticalCallRate := link.busyHourErlangs * 60 / simulationParams.callDuration
  let actualCallRate := theoreticalCallRate * (1 - simulationParams.blockingProb)
  let callRatePerMinute := actualCallRate / 60
  let bandwidthPerCall : ℚ :=
    if simulationParams.networkType = "pstn" then 64 / 1000
    else (if snapshot.codec = some "g729a" then 8 else 64) / 1000
  let maxConcurrentCalls := min ⌊link.busyHourErlangs⌋ simulationParams.maxConcurrentCalls
  { callRate := callRatePerMinute, bandwidthPerCall := bandwidthPerCall,
    maxConcurrentCalls := maxConcurrentCalls,
    callDuration := simulationParams.callDuration * 1000 }

/-- JS truthiness of the throttle guard
`!data.lastUpdateTime || (now - data.lastUpdateTime) > 500`: fires when no
update time is recorded, when the recorded time is the falsy `0`, or when
more than 500 ms have elapsed. -/
def throttleOpen (last : Option ℚ) (now : ℚ) : Bool :=
  match last with
  | none => true
  | some t => decide (t = 0) || decide (now - t > 500)

/-- `updateSimulationMetrics` (src/callsim.js 359–431): inside the throttle
window nothing happens; otherwise `lastUpdateTime` is recorded and the metric
elements (when present) receive the current counters. -/
def updateSimulationMetrics (snapshotId : String) (now : ℚ) (st : EngineState) :
    EngineState :=
  match assocFind snapshotId st.simulationData with
  | none => st
  | some data =>
    if throttleOpen data.lastUpdateTime now then
      let newData := assocUpd snapshotId
        (fun d => { d with lastUpdateTime := some now }) st.simulationData
      let newDisplayed := assocUpd snapshotId
        (fun _ => { activeCalls := data.activeCalls,
                    bandwidthUsage := data.bandwidthUsage,
                    blockedCalls := data.blockedCalls }) st.displayed
      { st with simulationData := newData, displayed := newDisplayed }
    else st

/-- `stopSimulation` (src/callsim.js 312–341): requires the control elements;
resets the global running flag and current id, clears the registered timers
for this snapshot, and performs the final (throttled) metrics update. -/
def stopSimulation (snapshotId : String) (now : ℚ) (st : EngineState) : EngineState :=
  if snapshotId ∈ st.domElems then
    let newCurrent := if st.currentSimulationId = some snapshotId then none
      else st.currentSimulationId
    let st1 := { st with simulationRunning := false, currentSimulationId := newCurrent }
    let st2 := clearSimulation snapshotId st1
    updateSimulationMetrics snapshotId now st2
  else st

/-- Insertion of a key into the registry (`window.simulationTimers[key] = t`
keeps one binding per key). -/
def putKey (k : String) (ks : List String) : List String :=
  if k ∈ ks then ks else ks ++ [k]

/-- `startSimulation` (src/callsim.js 56–189).  Note the order faithfully
mirrors the source: the global running flag and current id are set *before*
the snapshot lookup, so a missing snapshot aborts only after they changed.
(`stopSimulation(null)` on the degenerate branch finds no DOM elements and
does nothing, hence the `none => st`.) -/
def startSimulation (snapshotId : String) (now : ℚ) (st : EngineState) : EngineState :=
  if snapshotId ∈ st.domElems then
    let st1 :=
      match st.currentSimulationId with
      | some cid =>
        if st.simulationRunning ∧ cid ≠ snapshotId then stopSimulation cid now st else st
      | none => st
    let st2 := { st1 with simulationRunning := true, currentSimulationId := some snapshotId }
    match st2.snapshots.find? (fun s => s.id == snapshotId) with
    | none => st2
    | some snapshot =>
      let simulationParams := calculateDynamicSimulationParams snapshot
      let links := snapshot.trafficData.map (fun link =>
        let linkParams := calculateLinkSimulationParams link snapshot simulationParams
        ({ name := link.«from» ++ " → " ++ link.«to»,
           rate := linkParams.callRate,
           bandwidth := linkParams.bandwidthPerCall,
           protocol := snapshot.networkType,
           codec := snapshot.codec.getD "N/A",
           blockingProb := snapshot.blockingProb,
           maxConcurrentCalls := linkParams.maxConcurrentCalls,
           callDuration := linkParams.callDuration } : SimLink))
      let newData := assocUpd snapshotId (fun d =>
        { d with links := links, startTime := some now, activeCalls := 0,
                 totalCalls := 0, bandwidthUsage := 0, blockedCalls := 0,
                 simulationParams := some simulationParams }) st2.simulationData
      let st3 := { st2 with simulationData := newData }
      let timerKeys := ((List.range links.length).map
          (fun index => snapshotId ++ "-" ++ toString index)) ++
        [snapshotId ++ "-metrics", snapshotId ++ "-autostop", snapshotId ++ "-countdown"]
      let newTimers := timerKeys.foldl (fun ks k => putKey k ks) st3.simulationTimers
      { st3 with simulationTimers := newTimers }
  else st

/-- `spawnDynamicCall` (src/callsim.js 258–310), the body of a per-link
arrival.  `rDbg` drives the `Math.random() < 0.1` debug-log draw: on that
branch the template literal reads `callId` before its `const` declaration, the
callback throws, and no state changes.  `rDraw` is the blocking draw. -/
def spawnDynamicCall (snapshotId : String) (linkIndex : ℕ) (rDbg rDraw : ℚ)
    (st : EngineState) : EngineState :=
  match assocFind snapshotId st.simulationData with
  | none => st
  | some data =>
    match data.links.get? linkIndex with
    | none => st
    | some link =>
      let currentActiveCalls := data.activeCalls
      let maxCalls := link.maxConcurrentCalls
      let utilization : ℚ := (currentActiveCalls : ℚ) / (maxCalls : ℚ)
      let blockingProbability := link.blockingProb * utilization ^ 2
      let isBlocked := rDraw < blockingProbability
      if rDbg < 1 / 10 then
        st
      else
        let callId := link.callId + 1
        let link2 := { link with callId := callId }
        let data2 := { data with links := data.links.set linkIndex link2 }
        if isBlocked then
          let dataB := { data2 with blockedCalls := data2.blockedCalls + 1 }
          { st with simulationData := assocPut snapshotId dataB st.simulationData }
        else
          let data3 := { data2 with
            activeCalls := data2.activeCalls + 1,
            totalCalls := data2.totalCalls + 1,
            bandwidthUsage := data2.bandwidthUsage + link.bandwidth }
          let data4 := { data3 with peakActiveCalls :=
            if data3.activeCalls > data3.peakActiveCalls then data3.activeCalls
            else data3.peakActiveCalls }
          let data5 := { data4 with peakBandwidthUsage :=
            if data4.bandwidthUsage > data4.peakBandwidthUsage then data4.bandwidthUsage
            else data4.peakBandwidthUsage }
          let newData := assocPut snapshotId data5 st.simulationData
          let newPending := st.pendingDepartures ++ [(snapshotId, link.bandwidth)]
          { st with simulationData := newData, pendingDepartures := newPending }

/-- The departure callback scheduled at src/callsim.js 303–309: decrement
`activeCalls` (guarded to stay non-negative) and release the bandwidth. -/
def endCallTimeout (snapshotId : String) (bandwidth : ℚ) (st : EngineState) : EngineState :=
  let newData := assocUpd snapshotId (fun data =>
    if data.activeCalls > 0 then
      { data with activeCalls := data.activeCalls - 1,
                  bandwidthUsage := data.bandwidthUsage - bandwidth }
    else data) st.simulationData
  { st with simulationData := newData }

/-- The event loop firing the `k`-th outstanding departure timeout. -/
def fireDeparture (k : ℕ) (st : EngineState) : EngineState :=
  match st.pendingDepartures.get? k with
  | none => st
  | some entry =>
    endCallTimeout entry.1 entry.2
      { st with pendingDepartures := st.pendingDepartures.eraseIdx k }

/-- A per-link `setInterval` callback (src/callsim.js 143–152): with
probability 0.8 (`rGate`) it spawns a call; the drawn `randomFactor` is
unused by the source. -/
def linkTick (snapshotId : String) (index : ℕ) (rGate rDbg rDraw : ℚ)
    (st : EngineState) : EngineState :=
  if rGate < 4 / 5 then spawnDynamicCall snapshotId index rDbg rDraw st else st

/-- `window.getSimulationMetrics` (src/callsim.js 540–542). -/
def getSimulationMetrics (snapshotId : String) (st : EngineState) : Option SimData :=
  assocFind snapshotId st.simulationData

/-- The callbacks the browser event loop can fire, with their random draws
made explicit.  `stop` covers both the stop button and the 10 s auto-stop
deadline (whose callback calls `stopSimulation`). -/
inductive Event where
  | init (snapshotId : String)
  | start (snapshotId : String) (now : ℚ)
  | tick (snapshotId : String) (index : ℕ) (rGate rDbg rDraw : ℚ)
  | depart (k : ℕ)
  | metricsTick (snapshotId : String) (now : ℚ)
  | stop (snapshotId : String) (now : ℚ)
deriving DecidableEq, Repr

def step (st : EngineState) : Event → EngineState
  | .init id => initializeSimulation id st
  | .start id now => startSimulation id now st
  | .tick id index rGate rDbg rDraw => linkTick id index rGate rDbg rDraw st
  | .depart k => fireDeparture k st
  | .metricsTick id now => updateSimulationMetrics id now st
  | .stop id now => stopSimulation id now st

def run (st : EngineState) (events : List Event) : EngineState :=
  events.foldl step st

/-- The pristine state of a freshly loaded page (src/callsim.js 2–7), with
the stored snapshots and the DOM contents as parameters. -/
def mkInitState (snapshots : List Snapshot) (domElems : List String)
    (displayed : List (String × Displayed)) : EngineState :=
  { simulationRunning := false, currentSimulationId := none, simulationData := [],
    simulationTimers := [], pendingDepartures := [], displayed := displayed,
    snapshots := snapshots, domElems := domElems }

end Callsim

namespace Callsim

/-- Invariant: every recorded per-snapshot `activeCalls` counter is
non-negative. -/
def InvNonneg (st : EngineState) : Prop :=
  ∀ id data, assocFind id st.simulationData = some data → 0 ≤ data.activeCalls

theorem clearSimulation_simulationData (sid : String) (st : EngineState) :
    (clearSimulation sid st).simulationData = st.simulationData := rfl

theorem initializeSimulation_nonneg {st : EngineState} (h : InvNonneg st) (sid : String) :
    InvNonneg (initializeSimulation sid st) := by
  intro id data hfind
  simp only [initializeSimulation] at hfind
  split at hfind
  · split at hfind <;>
    · simp only [clearSimulation_simulationData, assocFind_assocPut] at hfind
      split at hfind
      · cases hfind
        simp
      · exact h id data hfind
  · exact h id data hfind

theorem updateSimulationMetrics_nonneg {st : EngineState} (h : InvNonneg st)
    (sid : String) (now : ℚ) : InvNonneg (updateSimulationMetrics sid now st) := by
  intro id data hfind
  simp only [updateSimulationMetrics] at hfind
  split at hfind
  · exact h id data hfind
  · next d0 hm =>
    split at hfind
    · simp only [assocFind_assocUpd] at hfind
      split at hfind
      · obtain ⟨d1, hd1, hd1e⟩ := Option.map_eq_some'.mp hfind
        have := h id d1 hd1
        cases hd1e
        simpa using this
      · exact h id data hfind
    · exact h id data hfind

theorem stopSimulation_nonneg {st : EngineState} (h : InvNonneg st)
    (sid : String) (now : ℚ) : InvNonneg (stopSimulation sid now st) := by
  simp only [stopSimulation]
  split
  · refine updateSimulationMetrics_nonneg ?_ sid now
    exact fun id data hfind => h id data hfind
  · exact h

theorem startSimulation_nonneg {st : EngineState} (h : InvNonneg st)
    (sid : String) (now : ℚ) : InvNonneg (startSimulation sid now st) := by
  simp only [startSimulation]
  split
  · have h1 : InvNonneg (match st.currentSimulationId with
      | some cid =>
        if st.simulationRunning ∧ cid ≠ sid then stopSimulation cid now st else st
      | none => st) := by
      split
      · split
        · exact stopSimulation_nonneg h _ now
        · exact h
      · exact h
    split
    · exact fun id data hfind => h1 id data hfind
    · intro id data hfind
      simp only [assocFind_assocUpd] at hfind
      split at hfind
      · obtain ⟨d1, hd1, hd1e⟩ := Option.map_eq_some'.mp hfind
        cases hd1e
        simp
      · exact h1 id data hfind
  · exact h

theorem spawnDynamicCall_nonneg {st : EngineState} (h : InvNonneg st)
    (sid : String) (li : ℕ) (rDbg rDraw : ℚ) :
    InvNonneg (spawnDynamicCall sid li rDbg rDraw st) := by
  intro id data hfind
  simp only [spawnDynamicCall] at hfind
  split at hfind
  · exact h id data hfind
  · next d0 hm =>
    split at hfind
    · exact h id data hfind
    · next link hl =>
      split at hfind
      · exact h id data hfind
      · split at hfind
        · simp only [assocFind_assocPut] at hfind
          split at hfind
          · cases hfind
            have := h sid d0 hm
            simpa using this
          · exact h id data hfind
        · simp only [assocFind_assocPut] at hfind
          split at hfind
          · cases hfind
            have := h sid d0 hm
            show 0 ≤ d0.activeCalls + 1
            omega
          · exact h id data hfind

theorem linkTick_nonneg {st : EngineState} (h : InvNonneg st)
    (sid : String) (index : ℕ) (rGate rDbg rDraw : ℚ) :
    InvNonneg (linkTick sid index rGate rDbg rDraw st) := by
  simp only [linkTick]
  split
  · exact spawnDynamicCall_nonneg h sid index rDbg rDraw
  · exact h

theorem endCallTimeout_nonneg {st : EngineState} (h : InvNonneg st)
    (sid : String) (bw : ℚ) : InvNonneg (endCallTimeout sid bw st) := by
  intro id data hfind
  simp only [endCallTimeout, assocFind_assocUpd] at hfind
  split at hfind
  · obtain ⟨d1, hd1, hd1e⟩ := Option.map_eq_some'.mp hfind
    have := h id d1 hd1
    cases hd1e
    split <;> simp <;> omega
  · exact h id data hfind

theorem fireDeparture_nonneg {st : EngineState} (h : InvNonneg st) (k : ℕ) :
    InvNonneg (fireDeparture k st) := by
  simp only [fireDeparture]
  split
  · exact h
  · exact endCallTimeout_nonneg (fun id data hfind => h id data hfind) _ _

theorem step_nonneg {st : EngineState} (h : InvNonneg st) (e : Event) :
    InvNonneg (step st e) := by
  cases e with
  | init sid => exact initializeSimulation_nonneg h sid
  | start sid now => exact startSimulation_nonneg h sid now
  | tick sid index rGate rDbg rDraw => exact linkTick_nonneg h sid index rGate rDbg rDraw
  | depart k => exact fireDeparture_nonneg h k
  | metricsTick sid now => exact updateSimulationMetrics_nonneg h sid now
  | stop sid now => exact stopSimulation_nonneg h sid now

theorem run_nonneg {st : EngineState} (h : InvNonneg st) (events : List Event) :
    InvNonneg (run st events) := by
  induction events generalizing st with
  | nil => exact h
  | cons e es ih => exact ih (step_nonneg h e)

end Callsim

namespace Callsim

/-- Evaluation of `spawnDynamicCall` on the accepted path: the draw is at or
above the quadratic-utilization threshold (and the debug-log draw avoids the
crashing branch). -/
theorem spawnDynamicCall_accept {st : EngineState} {sid : String} {li : ℕ}
    {data : SimData} {link : SimLink} {rDbg rDraw : ℚ}
    (hdata : assocFind sid st.simulationData = some data)
    (hlink : data.links.get? li = some link)
    (hdbg : ¬ rDbg < 1 / 10)
    (hacc : ¬ rDraw <
      link.blockingProb * ((data.activeCalls : ℚ) / (link.maxConcurrentCalls : ℚ)) ^ 2) :
    spawnDynamicCall sid li rDbg rDraw st =
      let data5 :=
        { data with
          links := data.links.set li { link with callId := link.callId + 1 },
          activeCalls := data.activeCalls + 1,
          totalCalls := data.totalCalls + 1,
          bandwidthUsage := data.bandwidthUsage + link.bandwidth,
          peakActiveCalls :=
            if data.activeCalls + 1 > data.peakActiveCalls then data.activeCalls + 1
            else data.peakActiveCalls,
          peakBandwidthUsage :=
            if data.bandwidthUsage + link.bandwidth > data.peakBandwidthUsage then
              data.bandwidthUsage + link.bandwidth
            else data.peakBandwidthUsage }
      { st with
        simulationData := assocPut sid data5 st.simulationData,
        pendingDepartures := st.pendingDepartures ++ [(sid, link.bandwidth)] } := by
  simp only [spawnDynamicCall, hdata, hlink, if_neg hdbg, if_neg hacc]

/-- Evaluation of `spawnDynamicCall` on the blocked path: the draw falls below
the quadratic-utilization threshold. -/
theorem spawnDynamicCall_blocked {st : EngineState} {sid : String} {li : ℕ}
    {data : SimData} {link : SimLink} {rDbg rDraw : ℚ}
    (hdata : assocFind sid st.simulationData = some data)
    (hlink : data.links.get? li = some link)
    (hdbg : ¬ rDbg < 1 / 10)
    (hbl : rDraw <
      link.blockingProb * ((data.activeCalls : ℚ) / (link.maxConcurrentCalls : ℚ)) ^ 2) :
    spawnDynamicCall sid li rDbg rDraw st =
      let dataB :=
        { data with
          links := data.links.set li { link with callId := link.callId + 1 },
          blockedCalls := data.blockedCalls + 1 }
      { st with simulationData := assocPut sid dataB st.simulationData } := by
  simp only [spawnDynamicCall, hdata, hlink, if_neg hdbg, if_pos hbl]

end Callsim

/-- C9: starting from a fresh page state, after any sequence of engine events
(initialisation, starts, arrival ticks with arbitrary draws, departure
timeouts, metric updates, stops) every snapshot's `activeCalls` counter is
non-negative: arrivals only increment it and the departure callback
decrements only when it is strictly positive. -/
theorem simulation_activeCalls_nonneg
    (snapshots : List Callsim.Snapshot) (domElems : List String)
    (displayed : List (String × Callsim.Displayed)) (events : List Callsim.Event)
    (id : String) (data : Callsim.SimData)
    (hfind : assocFind id
        (Callsim.run (Callsim.mkInitState snapshots domElems displayed) events).simulationData
      = some data) :
    0 ≤ data.activeCalls := by
  have hinit : Callsim.InvNonneg (Callsim.mkInitState snapshots domElems displayed) := by
    intro id data hfind
    simp [Callsim.mkInitState, assocFind] at hfind
  exact Callsim.run_nonneg hinit events id data hfind

/-- Witness for `simulation_activeCalls_nonneg`: one `init` event installs a
zeroed record. -/
theorem simulation_activeCalls_nonneg_witness :
    assocFind "s"
        (Callsim.run (Callsim.mkInitState [] ["s"] []) [Callsim.Event.init "s"]).simulationData
      = some ({ activeCalls := 0, totalCalls := 0, startTime := none, bandwidthUsage := 0,
                callRate := 0, links := [] } : Callsim.SimData) ∧
    (0 : ℤ) ≤ ({ activeCalls := 0, totalCalls := 0, startTime := none, bandwidthUsage := 0,
                 callRate := 0, links := [] } : Callsim.SimData).activeCalls :=
  ⟨rfl, simulation_activeCalls_nonneg [] ["s"] [] [Callsim.Event.init "s"] "s" _ rfl⟩

/-- C2 (amended): the acceptance logic does not enforce the capacity limit.
An arrival that finds the link exactly at `maxConcurrentCalls` is compared
against the probabilistic threshold
`blockingProb · (activeCalls/maxConcurrentCalls)² = blockingProb` only, so
whenever the uniform draw is at least `blockingProb` the call is accepted and
`activeCalls` exceeds `maxConcurrentCalls`. -/
theorem spawn_no_hard_cap {st : Callsim.EngineState} {sid : String} {li : ℕ}
    {data : Callsim.SimData} {link : Callsim.SimLink} {rDbg rDraw : ℚ}
    (hdata : assocFind sid st.simulationData = some data)
    (hlink : data.links.get? li = some link)
    (hfull : data.activeCalls = link.maxConcurrentCalls)
    (hmax : 0 < link.maxConcurrentCalls)
    (hdbg : 1 / 10 ≤ rDbg)
    (hdraw : link.blockingProb ≤ rDraw) :
    (assocFind sid (Callsim.spawnDynamicCall sid li rDbg rDraw st).simulationData).map
        Callsim.SimData.activeCalls = some (link.maxConcurrentCalls + 1) := by
  have hmaxq : ((link.maxConcurrentCalls : ℤ) : ℚ) ≠ 0 := by
    exact_mod_cast hmax.ne'
  have hacc : ¬ rDraw <
      link.blockingProb * ((data.activeCalls : ℚ) / (link.maxConcurrentCalls : ℚ)) ^ 2 := by
    rw [hfull, div_self hmaxq]
    simpa using not_lt.mpr hdraw
  rw [Callsim.spawnDynamicCall_accept hdata hlink (not_lt.mpr hdbg) hacc]
  simp [assocFind_assocPut, hfull]

/-- Concrete link and state for the `spawn_no_hard_cap` witness: a link with
capacity 2 already carrying 2 active calls. -/
def c2wLink : Callsim.SimLink :=
  { name := "US → China", rate := 1, bandwidth := 8 / 125, protocol := "voip",
    codec := "g711", blockingProb := 1 / 10, maxConcurrentCalls := 2, callDuration := 180000 }

def c2wState : Callsim.EngineState :=
  { simulationRunning := true, currentSimulationId := some "s",
    simulationData := [("s",
      { activeCalls := 2, totalCalls := 2, startTime := some 0, bandwidthUsage := 16 / 125,
        callRate := 0, links := [c2wLink] })],
    simulationTimers := [], pendingDepartures := [], displayed := [], snapshots := [],
    domElems := ["s"] }

/-- Witness for `spawn_no_hard_cap`: at full capacity 2/2 and a draw of 1/2,
the call is accepted and `activeCalls` becomes 3. -/
theorem spawn_no_hard_cap_witness :
    (assocFind "s" (Callsim.spawnDynamicCall "s" 0 (1 / 2) (1 / 2) c2wState).simulationData).map
        Callsim.SimData.activeCalls = some (2 + 1) :=
  spawn_no_hard_cap (by rfl) (by rfl) (by rfl) (by norm_num [c2wLink])
    (by norm_num) (by norm_num [c2wLink])

/-- C4 (amended): each arrival's blocking decision compares the uniform draw
against `blockingProb · (activeCalls/maxConcurrentCalls)²` — a quadratic
function of the instantaneous utilisation, not the Erlang-B probability. A
blocked draw increments `blockedCalls`; an accepted one increments
`activeCalls`. -/
theorem spawn_threshold_quadratic {st : Callsim.EngineState} {sid : String} {li : ℕ}
    {data : Callsim.SimData} {link : Callsim.SimLink} {rDbg rDraw : ℚ}
    (hdata : assocFind sid st.simulationData = some data)
    (hlink : data.links.get? li = some link)
    (hdbg : 1 / 10 ≤ rDbg) :
    (assocFind sid (Callsim.spawnDynamicCall sid li rDbg rDraw st).simulationData).map
        (fun d => (d.activeCalls, d.blockedCalls)) =
      some (if rDraw <
          link.blockingProb * ((data.activeCalls : ℚ) / (link.maxConcurrentCalls : ℚ)) ^ 2
        then (data.activeCalls, data.blockedCalls + 1)
        else (data.activeCalls + 1, data.blockedCalls)) := by
  by_cases hbl : rDraw <
      link.blockingProb * ((data.activeCalls : ℚ) / (link.maxConcurrentCalls : ℚ)) ^ 2
  · rw [Callsim.spawnDynamicCall_blocked hdata hlink (not_lt.mpr hdbg) hbl]
    simp [assocFind_assocPut, hbl]
  · rw [Callsim.spawnDynamicCall_accept hdata hlink (not_lt.mpr hdbg) hbl]
    simp [assocFind_assocPut, hbl]

/-- Concrete state for C4: one link with `blockingProb = 1/10`, capacity 2,
one active call. -/
def c4Link : Callsim.SimLink :=
  { name := "US → China", rate := 1, bandwidth := 8 / 125, protocol := "voip",
    codec := "g711", blockingProb := 1 / 10, maxConcurrentCalls := 2, callDuration := 180000 }

def c4Data : Callsim.SimData :=
  { activeCalls := 1, totalCalls := 1, startTime := some 0, bandwidthUsage := 8 / 125,
    callRate := 0, links := [c4Link] }

def c4State : Callsim.EngineState :=
  { simulationRunning := true, currentSimulationId := some "s",
    simulationData := [("s", c4Data)], simulationTimers := [], pendingDepartures := [],
    displayed := [], snapshots := [], domElems := ["s"] }

/-- Witness for `spawn_threshold_quadratic` at the concrete state: the draw
1/2 is above the threshold `1/10 · (1/2)² = 1/40`, so the call is accepted. -/
theorem spawn_threshold_quadratic_witness :
    (assocFind "s" (Callsim.spawnDynamicCall "s" 0 (1 / 2) (1 / 2) c4State).simulationData).map
        (fun d => (d.activeCalls, d.blockedCalls)) =
      some (if (1 / 2 : ℚ) <
          c4Link.blockingProb * ((c4Data.activeCalls : ℚ) / (c4Link.maxConcurrentCalls : ℚ)) ^ 2
        then (c4Data.activeCalls, c4Data.blockedCalls + 1)
        else (c4Data.activeCalls + 1, c4Data.blockedCalls)) :=
  spawn_threshold_quadratic (by rfl) (by rfl) (by norm_num)

/-- C4 counterexample to the claim as stated: in the concrete state the
code's threshold is `1/10 · (1/2)² = 1/40`, while the Erlang-B blocking
probability at offered load `activeCalls = 1` with `maxConcurrentCalls = 2`
servers is `B(1,2) = 1/5`; the two differ, and a draw of `1/10` — below the
Erlang-B probability, so an Erlang-B policy would block — is accepted by the
code (`activeCalls` rises to 2). -/
theorem spawn_threshold_cex :
    c4Link.blockingProb * ((c4Data.activeCalls : ℚ) / (c4Link.maxConcurrentCalls : ℚ)) ^ 2
        ≠ erlangBrec 1 2 ∧
    (1 / 10 : ℚ) < erlangBrec 1 2 ∧
    (assocFind "s" (Callsim.spawnDynamicCall "s" 0 (1 / 2) (1 / 10) c4State).simulationData).map
        Callsim.SimData.activeCalls = some 2 := by
  refine ⟨?_, ?_, ?_⟩
  · norm_num [c4Link, c4Data, erlangBrec]
  · norm_num [erlangBrec]
  · rw [Callsim.spawnDynamicCall_accept (by rfl) (by rfl) (by norm_num)
      (by norm_num [c4Link, c4Data])]
    simp [assocFind_assocPut, c4Data]

/-! ### A reachable run that exceeds a link's capacity (C2 counterexample)

The snapshot is genuine analysis output: the equal-split VoIP/G.711 traffic
data at blocking probability 0.1.  Its first link (US → China) gets
`maxConcurrentCalls = min ⌊18.16⌋ 15 = 15`.  Arrival ticks with gate draw 0,
debug draw 1/2 and blocking draw 1/2 are always accepted, because the
quadratic-utilisation threshold never exceeds `0.1·(k/15)² < 1/2` for
`k ≤ 30`; departures are 180 s out, far beyond the 10 s window, so none
intervenes.  Sixteen consecutive accepted arrivals drive `activeCalls` to 16
on a link capped at 15. -/

def snapC : Callsim.Snapshot :=
  { id := "s", networkType := "voip", codec := some "g711", blockingProb := 1 / 10,
    trafficData := Part001.calculateTrafficData "voip" "g711" (1 / 10) }

def disp0 : Callsim.Displayed :=
  { activeCalls := 0, bandwidthUsage := 0, blockedCalls := 0 }

/-- The first simulation link (US → China) after `k` calls on it. -/
def c2Link0 (c : ℤ) : Callsim.SimLink :=
  { name := "US → China", rate := 36329 / 400000, bandwidth := 8 / 125, protocol := "voip",
    codec := "g711", blockingProb := 1 / 10, maxConcurrentCalls := 15,
    callDuration := 180000, callId := c }

/-- The remaining five simulation links, untouched by the trace. -/
def c2LinksRest : List Callsim.SimLink :=
  [ { name := "US → UK", rate := 36329 / 400000, bandwidth := 8 / 125, protocol := "voip",
      codec := "g711", blockingProb := 1 / 10, maxConcurrentCalls := 15, callDuration := 180000 },
    { name := "China → US", rate := 240431 / 1200000, bandwidth := 8 / 125, protocol := "voip",
      codec := "g711", blockingProb := 1 / 10, maxConcurrentCalls := 15, callDuration := 180000 },
    { name := "China → UK", rate := 240431 / 1200000, bandwidth := 8 / 125, protocol := "voip",
      codec := "g711", blockingProb := 1 / 10, maxConcurrentCalls := 15, callDuration := 180000 },
    { name := "UK → US", rate := 119 / 600, bandwidth := 8 / 125, protocol := "voip",
      codec := "g711", blockingProb := 1 / 10, maxConcurrentCalls := 15, callDuration := 180000 },
    { name := "UK → China", rate := 119 / 600, bandwidth := 8 / 125, protocol := "voip",
      codec := "g711", blockingProb := 1 / 10, maxConcurrentCalls := 15, callDuration := 180000 } ]

def c2Params : Callsim.SimulationParams :=
  { callDuration := 180, bandwidthPerCall := 64, maxConcurrentCalls := 15,
    blockingProb := 1 / 10, networkType := "voip", codec := some "g711" }

/-- The snapshot's simulation data after `k` accepted calls on link 0. -/
def c2Data (k : ℤ) : Callsim.SimData :=
  { activeCalls := k, totalCalls := k, startTime := some 0,
    bandwidthUsage := (k : ℚ) * (8 / 125), callRate := 0,
    links := c2Link0 k :: c2LinksRest, blockedCalls := 0, peakActiveCalls := k,
    peakBandwidthUsage := (k : ℚ) * (8 / 125), lastUpdateTime := none,
    simulationParams := some c2Params }

/-- The engine state after `init`, `start` and `k` accepted arrivals. -/
def c2State (k : ℤ) : Callsim.EngineState :=
  { simulationRunning := true, currentSimulationId := some "s",
    simulationData := [("s", c2Data k)],
    simulationTimers := ["s-0", "s-1", "s-2", "s-3", "s-4", "s-5",
      "s-metrics", "s-autostop", "s-countdown"],
    pendingDepartures := List.replicate k.toNat ("s", 8 / 125),
    displayed := [("s", disp0)], snapshots := [snapC], domElems := ["s"] }

theorem c2_start :
    Callsim.run (Callsim.mkInitState [snapC] ["s"] [("s", disp0)])
      [Callsim.Event.init "s", Callsim.Event.start "s" 0] = c2State 0 := by
  norm_num +decide [Callsim.run, Callsim.step, Callsim.initializeSimulation,
    Callsim.startSimulation, Callsim.stopSimulation, Callsim.clearSimulation,
    Callsim.updateSimulationMetrics, Callsim.calculateDynamicSimulationParams,
    Callsim.calculateLinkSimulationParams, Callsim.mkInitState, Callsim.putKey,
    snapC, disp0, c2State, c2Data, c2Params, c2Link0, c2LinksRest,
    assocFind, assocPut, assocUpd, Part001.calculateTrafficData_voip_g711,
    List.range_succ]

theorem c2_tick (k : ℤ) (hk0 : 0 ≤ k) (hk : k ≤ 30) :
    Callsim.step (c2State k) (Callsim.Event.tick "s" 0 0 (1 / 2) (1 / 2)) =
      c2State (k + 1) := by
  have hkq0 : (0 : ℚ) ≤ (k : ℚ) := by exact_mod_cast hk0
  have hkq : (k : ℚ) ≤ 30 := by exact_mod_cast hk
  have hdata : assocFind "s" (c2State k).simulationData = some (c2Data k) := by
    simp [c2State, assocFind]
  have hlink : (c2Data k).links.get? 0 = some (c2Link0 k) := rfl
  have hsq : (k : ℚ) * (k : ℚ) ≤ 30 * 30 :=
    mul_le_mul hkq hkq hkq0 (by norm_num)
  have hacc : ¬ (1 / 2 : ℚ) < (c2Link0 k).blockingProb *
      (((c2Data k).activeCalls : ℚ) / ((c2Link0 k).maxConcurrentCalls : ℚ)) ^ 2 := by
    simp only [c2Link0, c2Data]
    rw [not_lt]
    have h15 : (((15 : ℤ) : ℚ)) = 15 := by norm_num
    rw [h15]
    nlinarith [hsq]
  show Callsim.linkTick "s" 0 0 (1 / 2) (1 / 2) (c2State k) = c2State (k + 1)
  rw [Callsim.linkTick, if_pos (by norm_num : (0 : ℚ) < 4 / 5)]
  rw [Callsim.spawnDynamicCall_accept hdata hlink (by norm_num) hacc]
  have htonat : (k + 1).toNat = k.toNat + 1 := by omega
  have hpeak : (k : ℤ) < k + 1 := lt_add_one k
  have hpb : (k : ℚ) * (8 / 125) < (k : ℚ) * (8 / 125) + 8 / 125 := by linarith
  simp only [c2State, c2Data, c2Link0, assocPut, if_pos, List.set]
  norm_num [htonat, List.replicate_succ', hpeak, hpb, mul_add, add_mul]

theorem c2_run_ticks : ∀ (n : ℕ) (k : ℤ), 0 ≤ k → k + n ≤ 30 →
    Callsim.run (c2State k)
      (List.replicate n (Callsim.Event.tick "s" 0 0 (1 / 2) (1 / 2))) =
      c2State (k + n)
  | 0, k, _, _ => by simp [Callsim.run]
  | n + 1, k, hk0, hkn => by
    rw [List.replicate_succ]
    show Callsim.run (Callsim.step (c2State k) _) _ = _
    rw [c2_tick k hk0 (by omega)]
    rw [c2_run_ticks n (k + 1) (by omega) (by omega)]
    congr 1
    push_cast
    ring

/-- C2 counterexample to the claim as stated: on a genuine snapshot (the
equal-split VoIP/G.711 analysis at blocking probability 0.1) there is a
schedulable event sequence — initialise, start, then sixteen arrival ticks
with uniform draws gate = 0, debug = 1/2, blocking = 1/2, all before any
180 s departure can fire within the 10 s window — after which the snapshot's
`activeCalls` is 16 while link 0's `maxConcurrentCalls` is 15: the count
exceeds the capacity limit. -/
theorem simulation_capacity_exceeded_cex :
    (Callsim.getSimulationMetrics "s"
        (Callsim.run (Callsim.mkInitState [snapC] ["s"] [("s", disp0)])
          ([Callsim.Event.init "s", Callsim.Event.start "s" 0] ++
            List.replicate 16 (Callsim.Event.tick "s" 0 0 (1 / 2) (1 / 2))))).map
        Callsim.SimData.activeCalls = some 16 ∧
    ((Callsim.getSimulationMetrics "s"
        (Callsim.run (Callsim.mkInitState [snapC] ["s"] [("s", disp0)])
          ([Callsim.Event.init "s", Callsim.Event.start "s" 0] ++
            List.replicate 16 (Callsim.Event.tick "s" 0 0 (1 / 2) (1 / 2))))).bind
        (fun d => d.links.get? 0)).map Callsim.SimLink.maxConcurrentCalls = some 15 := by
  have hsplit : Callsim.run (Callsim.mkInitState [snapC] ["s"] [("s", disp0)])
      ([Callsim.Event.init "s", Callsim.Event.start "s" 0] ++
        List.replicate 16 (Callsim.Event.tick "s" 0 0 (1 / 2) (1 / 2))) =
      c2State 16 := by
    rw [Callsim.run, List.foldl_append]
    rw [show List.foldl Callsim.step (Callsim.mkInitState [snapC] ["s"] [("s", disp0)])
        [Callsim.Event.init "s", Callsim.Event.start "s" 0] = c2State 0 from c2_start]
    rw [show List.foldl Callsim.step (c2State 0)
          (List.replicate 16 (Callsim.Event.tick "s" 0 0 (1 / 2) (1 / 2))) =
        c2State (0 + 16) from c2_run_ticks 16 0 (by norm_num) (by norm_num)]
    norm_num
  rw [hsplit]
  exact ⟨rfl, rfl⟩

/-! ### Stop does not cancel departure timeouts (C3) -/

theorem updateSimulationMetrics_timers (sid : String) (now : ℚ) (st : Callsim.EngineState) :
    (Callsim.updateSimulationMetrics sid now st).simulationTimers = st.simulationTimers := by
  unfold Callsim.updateSimulationMetrics
  split
  · rfl
  · split <;> rfl

theorem updateSimulationMetrics_pending (sid : String) (now : ℚ) (st : Callsim.EngineState) :
    (Callsim.updateSimulationMetrics sid now st).pendingDepartures = st.pendingDepartures := by
  unfold Callsim.updateSimulationMetrics
  split
  · rfl
  · split <;> rfl

/-- C3 (amended): `stopSimulation` cancels exactly the timers *registered* in
`window.simulationTimers` under the snapshot's id prefix — the per-link
arrival intervals, the metrics interval, the auto-stop deadline and the
countdown — and leaves every scheduled call-departure timeout in place,
because `spawnDynamicCall` never registers those under any key. -/
theorem stop_cancels_registered_timers (sid : String) (now : ℚ)
    (st : Callsim.EngineState) (hdom : sid ∈ st.domElems) :
    (∀ key ∈ (Callsim.stopSimulation sid now st).simulationTimers,
        strStartsWith key sid = false) ∧
    (Callsim.stopSimulation sid now st).pendingDepartures = st.pendingDepartures := by
  simp only [Callsim.stopSimulation, if_pos hdom]
  constructor
  · intro key hkey
    rw [updateSimulationMetrics_timers] at hkey
    simp only [Callsim.clearSimulation, List.mem_filter] at hkey
    simpa using hkey.2
  · rw [updateSimulationMetrics_pending]
    rfl

/-- Witness for `stop_cancels_registered_timers` at the running state
`c2State 1` (nine registered timers, one pending departure). -/
theorem stop_cancels_registered_timers_witness :
    ("s" ∈ (c2State 1).domElems) ∧
    ((∀ key ∈ (Callsim.stopSimulation "s" 1000 (c2State 1)).simulationTimers,
        strStartsWith key "s" = false) ∧
    (Callsim.stopSimulation "s" 1000 (c2State 1)).pendingDepartures =
      (c2State 1).pendingDepartures) :=
  ⟨by simp [c2State], stop_cancels_registered_timers "s" 1000 (c2State 1) (by simp [c2State])⟩

/-- The state reached by `init`, `start`, one accepted arrival, then `stop`
at t = 1000 ms: the registry is empty but one departure timeout is still
outstanding. -/
def c3Stopped : Callsim.EngineState :=
  { simulationRunning := false, currentSimulationId := none,
    simulationData := [("s",
      { activeCalls := 1, totalCalls := 1, startTime := some 0, bandwidthUsage := 8 / 125,
        callRate := 0, links := c2Link0 1 :: c2LinksRest, blockedCalls := 0,
        peakActiveCalls := 1, peakBandwidthUsage := 8 / 125, lastUpdateTime := some 1000,
        simulationParams := some c2Params })],
    simulationTimers := [],
    pendingDepartures := [("s", 8 / 125)],
    displayed := [("s", { activeCalls := 1, bandwidthUsage := 8 / 125, blockedCalls := 0 })],
    snapshots := [snapC], domElems := ["s"] }

theorem c3_stop :
    Callsim.step (c2State 1) (Callsim.Event.stop "s" 1000) = c3Stopped := by
  norm_num +decide [Callsim.step, Callsim.stopSimulation, Callsim.clearSimulation,
    Callsim.updateSimulationMetrics, Callsim.throttleOpen, strStartsWith,
    c2State, c2Data, c2Link0, c2LinksRest, c2Params, c3Stopped, disp0,
    assocFind, assocUpd]

/-- C3 counterexample to the claim as stated: after `init`, `start`, one
accepted arrival and `stop`, an outstanding departure timeout remains (it was
never registered under the snapshot id, so `stop` could not cancel it); when
it fires, the polled metrics change from `activeCalls = 1` to
`activeCalls = 0`. -/
theorem stop_dangling_departure_cex :
    (Callsim.run (Callsim.mkInitState [snapC] ["s"] [("s", disp0)])
        [Callsim.Event.init "s", Callsim.Event.start "s" 0,
         Callsim.Event.tick "s" 0 0 (1 / 2) (1 / 2),
         Callsim.Event.stop "s" 1000]).pendingDepartures ≠ [] ∧
    (Callsim.getSimulationMetrics "s"
        (Callsim.run (Callsim.mkInitState [snapC] ["s"] [("s", disp0)])
          [Callsim.Event.init "s", Callsim.Event.start "s" 0,
           Callsim.Event.tick "s" 0 0 (1 / 2) (1 / 2),
           Callsim.Event.stop "s" 1000])).map Callsim.SimData.activeCalls = some 1 ∧
    (Callsim.getSimulationMetrics "s"
        (Callsim.step
          (Callsim.run (Callsim.mkInitState [snapC] ["s"] [("s", disp0)])
            [Callsim.Event.init "s", Callsim.Event.start "s" 0,
             Callsim.Event.tick "s" 0 0 (1 / 2) (1 / 2),
             Callsim.Event.stop "s" 1000])
          (Callsim.Event.depart 0))).map Callsim.SimData.activeCalls = some 0 := by
  have hrun : Callsim.run (Callsim.mkInitState [snapC] ["s"] [("s", disp0)])
      [Callsim.Event.init "s", Callsim.Event.start "s" 0,
       Callsim.Event.tick "s" 0 0 (1 / 2) (1 / 2),
       Callsim.Event.stop "s" 1000] = c3Stopped := by
    have h2 : Callsim.run (Callsim.mkInitState [snapC] ["s"] [("s", disp0)])
        [Callsim.Event.init "s", Callsim.Event.start "s" 0,
         Callsim.Event.tick "s" 0 0 (1 / 2) (1 / 2),
         Callsim.Event.stop "s" 1000] =
        Callsim.step (Callsim.step
          (Callsim.run (Callsim.mkInitState [snapC] ["s"] [("s", disp0)])
            [Callsim.Event.init "s", Callsim.Event.start "s" 0])
          (Callsim.Event.tick "s" 0 0 (1 / 2) (1 / 2)))
          (Callsim.Event.stop "s" 1000) := rfl
    rw [h2, c2_start, c2_tick 0 (by norm_num) (by norm_num)]
    norm_num
    exact c3_stop
  rw [hrun]
  refine ⟨by simp [c3Stopped], rfl, ?_⟩
  norm_num +decide [Callsim.step, Callsim.fireDeparture, Callsim.endCallTimeout,
    c3Stopped, Callsim.getSimulationMetrics, assocFind, assocUpd]

/-! ### Starting with a missing snapshot (C5) -/

def c5State : Callsim.EngineState := Callsim.mkInitState [] ["s1"] []

/-- C5 counterexample to the claim as stated: starting a simulation for id
"s1" when no snapshot with that id exists still flips the global running flag
to `true` and sets the global current-simulation id — the abort happens only
after those writes. -/
theorem start_missing_snapshot_cex :
    c5State.simulationRunning = false ∧
    c5State.currentSimulationId = none ∧
    c5State.snapshots.find? (fun s => s.id == "s1") = none ∧
    (Callsim.startSimulation "s1" 0 c5State).simulationRunning = true ∧
    (Callsim.startSimulation "s1" 0 c5State).currentSimulationId = some "s1" := by
  refine ⟨rfl, rfl, rfl, ?_, ?_⟩ <;>
    norm_num +decide [Callsim.startSimulation, c5State, Callsim.mkInitState]

/-- C5 (amended): when the snapshot lookup fails (and no other simulation is
running), `startSimulation` creates no per-snapshot state, registers no
timers, and leaves everything unchanged *except* the global simulation state:
the running flag is set to `true` and the current-simulation id to the
requested id before the missing snapshot is detected. -/
theorem start_missing_snapshot_only_globals (sid : String) (now : ℚ)
    (st : Callsim.EngineState) (hdom : sid ∈ st.domElems)
    (hrun : st.simulationRunning = false)
    (hsnap : st.snapshots.find? (fun s => s.id == sid) = none) :
    Callsim.startSimulation sid now st =
      { st with simulationRunning := true, currentSimulationId := some sid } := by
  cases hc : st.currentSimulationId with
  | none =>
    unfold Callsim.startSimulation
    rw [if_pos hdom]
    simp only [hc, hsnap]
  | some cid =>
    unfold Callsim.startSimulation
    rw [if_pos hdom]
    simp only [hc, hrun]
    rw [if_neg (by simp)]
    simp only [hsnap]

/-- Witness for `start_missing_snapshot_only_globals` at the concrete fresh
state. -/
theorem start_missing_snapshot_only_globals_witness :
    ("s1" ∈ c5State.domElems) ∧
    c5State.simulationRunning = false ∧
    c5State.snapshots.find? (fun s => s.id == "s1") = none ∧
    Callsim.startSimulation "s1" 0 c5State =
      { c5State with simulationRunning := true, currentSimulationId := some "s1" } :=
  ⟨by simp [c5State, Callsim.mkInitState], rfl, rfl,
    start_missing_snapshot_only_globals "s1" 0 c5State
      (by simp [c5State, Callsim.mkInitState]) rfl rfl⟩

/-! ### The final metrics update at stop is throttled (C8) -/

def c8Data : Callsim.SimData :=
  { activeCalls := 1, totalCalls := 1, startTime := some 0, bandwidthUsage := 8 / 125,
    callRate := 0, links := [c4Link], blockedCalls := 0, peakActiveCalls := 1,
    peakBandwidthUsage := 8 / 125, lastUpdateTime := some 1000 }

def c8State : Callsim.EngineState :=
  { simulationRunning := true, currentSimulationId := some "s",
    simulationData := [("s", c8Data)], simulationTimers := ["s-metrics"],
    pendingDepartures := [], displayed := [("s", disp0)], snapshots := [],
    domElems := ["s"] }

/-- C8 counterexample to the claim as stated: stopping at t = 1100 ms, only
100 ms after the last periodic push (`lastUpdateTime = 1000`), skips the
final metrics update entirely — the observer-visible `activeCalls` stays 0
while the engine's internal final value is 1. -/
theorem stop_final_update_throttled_cex :
    (Callsim.stopSimulation "s" 1100 c8State).displayed = c8State.displayed ∧
    assocFind "s" c8State.displayed = some disp0 ∧
    disp0.activeCalls = 0 ∧
    (assocFind "s" (Callsim.stopSimulation "s" 1100 c8State).simulationData).map
        Callsim.SimData.activeCalls = some 1 := by
  refine ⟨?_, rfl, rfl, ?_⟩ <;>
    norm_num +decide [Callsim.stopSimulation, Callsim.clearSimulation,
      Callsim.updateSimulationMetrics, Callsim.throttleOpen, strStartsWith,
      c8State, c8Data, disp0, assocFind, assocUpd]

/-- C8 (amended): the final update at stop runs through the same throttled
`updateSimulationMetrics`; it pushes the engine's exact internal values to the
observer-visible read-outs only when the throttle window is open (no previous
push, a falsy recorded time, or more than 500 ms elapsed) — otherwise it is
skipped and the read-outs keep their previous values. -/
theorem stop_final_update_exact_when_open (sid : String) (now : ℚ)
    (st : Callsim.EngineState) (data : Callsim.SimData) (old : Callsim.Displayed)
    (hdom : sid ∈ st.domElems)
    (hdata : assocFind sid st.simulationData = some data)
    (hopen : Callsim.throttleOpen data.lastUpdateTime now = true)
    (hdisp : assocFind sid st.displayed = some old) :
    assocFind sid (Callsim.stopSimulation sid now st).displayed =
      some { activeCalls := data.activeCalls, bandwidthUsage := data.bandwidthUsage,
             blockedCalls := data.blockedCalls } := by
  simp only [Callsim.stopSimulation, if_pos hdom]
  unfold Callsim.updateSimulationMetrics
  rw [show assocFind sid (Callsim.clearSimulation sid
      { st with simulationRunning := false,
                currentSimulationId := if st.currentSimulationId = some sid then none
                  else st.currentSimulationId }).simulationData
    = assocFind sid st.simulationData from rfl, hdata]
  simp only [hopen, if_true]
  rw [show (Callsim.clearSimulation sid
      { st with simulationRunning := false,
                currentSimulationId := if st.currentSimulationId = some sid then none
                  else st.currentSimulationId }).displayed = st.displayed from rfl]
  simp [assocFind_assocUpd, hdisp]

/-- Witness for `stop_final_update_exact_when_open`: same state as the
counterexample but with no recorded update time, stopping at t = 1100. -/
def c8wState : Callsim.EngineState :=
  { c8State with simulationData := [("s", { c8Data with lastUpdateTime := none })] }

theorem stop_final_update_exact_when_open_witness :
    ("s" ∈ c8wState.domElems) ∧
    assocFind "s" c8wState.simulationData = some { c8Data with lastUpdateTime := none } ∧
    Callsim.throttleOpen ({ c8Data with lastUpdateTime := none }).lastUpdateTime 1100 = true ∧
    assocFind "s" c8wState.displayed = some disp0 ∧
    assocFind "s" (Callsim.stopSimulation "s" 1100 c8wState).displayed =
      some { activeCalls := ({ c8Data with lastUpdateTime := none }).activeCalls,
             bandwidthUsage := ({ c8Data with lastUpdateTime := none }).bandwidthUsage,
             blockedCalls := ({ c8Data with lastUpdateTime := none }).blockedCalls } :=
  ⟨by simp [c8wState, c8State], rfl, rfl, rfl,
    stop_final_update_exact_when_open "s" 1100 c8wState _ disp0
      (by simp [c8wState, c8State]) rfl rfl rfl⟩

/-- Witness for `appjs_six_positive_links` with all draws equal to 1/2. -/
theorem appjs_six_positive_links_witness :
    (∀ i : ℕ, (0 : ℚ) ≤ (fun _ : ℕ => (1 : ℚ) / 2) i ∧ (fun _ : ℕ => (1 : ℚ) / 2) i < 1) ∧
    ((AppJs.calculateTrafficData "voip" "g711" (1 / 100) (fun _ => 1 / 2)).length = 6 ∧
    (AppJs.calculateTrafficData "voip" "g711" (1 / 100) (fun _ => 1 / 2)).map
        (fun l => (l.«from», l.«to»)) =
      [("US", "China"), ("US", "UK"), ("China", "US"), ("China", "UK"),
        ("UK", "US"), ("UK", "China")] ∧
    ∀ l ∈ AppJs.calculateTrafficData "voip" "g711" (1 / 100) (fun _ => 1 / 2),
      l.«from» ≠ l.«to» ∧ 0 < l.dailyMinutes) :=
  ⟨fun i => ⟨by norm_num, by norm_num⟩,
    appjs_six_positive_links "voip" "g711" (1 / 100) (fun _ => 1 / 2)
      (fun i => ⟨by norm_num, by norm_num⟩)⟩
